import Mathlib

/-!
Shallow embedding of `states/azure/resource/azurearm_resource.py`
(the Azure ARM resource-group Salt state module).

The module exposes two orchestration functions, `resource_group_present`
and `resource_group_absent`, which call an injected client
(`__salt__['azurearm_resource.*']`) and read the process-wide dry-run
flag `__opts__['test']`.  We embed Python dict values as `PyVal`,
the injected client as an oracle whose responses may depend on the
calls made so far (`Client`), and instrument each embedded function
with an explicit log of the client calls it performs, in order.
-/

/-- Embedding of the Python values that flow through this module:
strings, `None`, booleans, and (string-keyed) dicts. -/
inductive PyVal where
  | str (s : String)
  | noneV
  | boolV (b : Bool)
  | dict (entries : List (String × PyVal))
  deriving Repr

mutual

/-- Boolean equality on `PyVal`, mirroring Python `==` on these values. -/
def pyBeq : PyVal → PyVal → Bool
  | PyVal.str a, PyVal.str b => a == b
  | PyVal.noneV, PyVal.noneV => true
  | PyVal.boolV a, PyVal.boolV b => a == b
  | PyVal.dict a, PyVal.dict b => pyEntriesBeq a b
  | _, _ => false

/-- Boolean equality on dict entry lists. -/
def pyEntriesBeq : List (String × PyVal) → List (String × PyVal) → Bool
  | [], [] => true
  | (k₁, v₁) :: r₁, (k₂, v₂) :: r₂ => k₁ == k₂ && pyBeq v₁ v₂ && pyEntriesBeq r₁ r₂
  | _, _ => false

end

mutual

/-- Correctness of `pyBeq` with respect to propositional equality. -/
theorem pyBeq_iff : ∀ a b, pyBeq a b = true ↔ a = b
  | PyVal.str a, PyVal.str b => by simp [pyBeq]
  | PyVal.str a, PyVal.noneV => by simp [pyBeq]
  | PyVal.str a, PyVal.boolV b => by simp [pyBeq]
  | PyVal.str a, PyVal.dict b => by simp [pyBeq]
  | PyVal.noneV, PyVal.str b => by simp [pyBeq]
  | PyVal.noneV, PyVal.noneV => by simp [pyBeq]
  | PyVal.noneV, PyVal.boolV b => by simp [pyBeq]
  | PyVal.noneV, PyVal.dict b => by simp [pyBeq]
  | PyVal.boolV a, PyVal.str b => by simp [pyBeq]
  | PyVal.boolV a, PyVal.noneV => by simp [pyBeq]
  | PyVal.boolV a, PyVal.boolV b => by simp [pyBeq]
  | PyVal.boolV a, PyVal.dict b => by simp [pyBeq]
  | PyVal.dict a, PyVal.str b => by simp [pyBeq]
  | PyVal.dict a, PyVal.noneV => by simp [pyBeq]
  | PyVal.dict a, PyVal.boolV b => by simp [pyBeq]
  | PyVal.dict a, PyVal.dict b => by
      simp only [pyBeq, PyVal.dict.injEq]
      exact pyEntriesBeq_iff a b

/-- Correctness of `pyEntriesBeq` with respect to propositional equality. -/
theorem pyEntriesBeq_iff : ∀ a b, pyEntriesBeq a b = true ↔ a = b
  | [], [] => by simp [pyEntriesBeq]
  | [], (k, v) :: r => by simp [pyEntriesBeq]
  | (k, v) :: r, [] => by simp [pyEntriesBeq]
  | (k₁, v₁) :: r₁, (k₂, v₂) :: r₂ => by
      simp only [pyEntriesBeq, Bool.and_eq_true, beq_iff_eq, List.cons.injEq, Prod.mk.injEq,
        pyBeq_iff v₁ v₂, pyEntriesBeq_iff r₁ r₂]

end

instance : DecidableEq PyVal := fun a b =>
  decidable_of_iff (pyBeq a b = true) (pyBeq_iff a b)

/-- Python truthiness on the embedded values (`if not ret['changes']`,
`tags or ...`, `if present`, ...). -/
def PyVal.isTruthy : PyVal → Bool
  | PyVal.str s => s != ""
  | PyVal.noneV => false
  | PyVal.boolV b => b
  | PyVal.dict es => !es.isEmpty

/-- Mirrors `isinstance(x, dict)`. -/
def PyVal.isDict : PyVal → Bool
  | PyVal.dict _ => true
  | _ => false

/-- Python `a or b`: yields `a` if `a` is truthy, else `b`. -/
def pyOr (a b : PyVal) : PyVal :=
  if a.isTruthy then a else b

/-- First-match lookup in a Python dict entry list. -/
def pyLookup : List (String × PyVal) → String → Option PyVal
  | [], _ => none
  | (k, v) :: rest, key => if k = key then some v else pyLookup rest key

/-- Mirrors Python `d.get(key, default)` on a dict value (non-dicts,
which would raise in Python, yield the default). -/
def pyGet (v : PyVal) (key : String) (dflt : PyVal) : PyVal :=
  match v with
  | PyVal.dict es => (pyLookup es key).getD dflt
  | _ => dflt

/-- Keys of a dict value, in order (non-dicts have no keys). -/
def pyKeys : PyVal → List String
  | PyVal.dict es => es.map Prod.fst
  | _ => []

/-- Mirrors Python `str(x)` as used by `'...{1}'.format(...)` on the
values a client can report in an `error` field (dicts are abstracted). -/
def pyStrOf : PyVal → String
  | PyVal.str s => s
  | PyVal.noneV => "None"
  | PyVal.boolV true => "True"
  | PyVal.boolV false => "False"
  | PyVal.dict _ => "<dict>"

/-- Modelled from the spec: the structural diff utility
(`__utils__['dictdiffer.deep_diff']`) is external to this repository
(Salt's `dictdiffer`); the spec describes it as "a generic recursive
structural diff utility ... comparing two key→string mappings and
returning an empty result iff equal".  We model it on flat dicts of
embedded values: the `old` part holds the entries of `old` not matched
in `new`, the `new` part the entries of `new` not matched in `old`;
each part appears under its key only when non-empty. -/
def deep_diff (oldv newv : PyVal) : PyVal :=
  let oldEs := match oldv with | PyVal.dict es => es | _ => []
  let newEs := match newv with | PyVal.dict es => es | _ => []
  let oldPart := oldEs.filter (fun kv => !(pyLookup newEs kv.1 == some kv.2))
  let newPart := newEs.filter (fun kv => !(pyLookup oldEs kv.1 == some kv.2))
  PyVal.dict
    ((if oldPart.isEmpty then [] else [("old", PyVal.dict oldPart)]) ++
     (if newPart.isEmpty then [] else [("new", PyVal.dict newPart)]))

/-- One call to the injected client module, with the arguments the state
module passes (the `connection_auth` kwargs, forwarded unchanged to every
call, are elided). -/
inductive Call where
  | check_existence (name : String)
  | get (name : String)
  | create_or_update (name : String) (location : String) (managed_by : PyVal) (tags : PyVal)
  | delete (name : String)
  deriving DecidableEq, Repr

/-- Whether a call mutates cloud state (`create_or_update` or `delete`). -/
def Call.isMutating : Call → Bool
  | Call.create_or_update _ _ _ _ => true
  | Call.delete _ => true
  | _ => false

/-- The mutating calls of a log, in order. -/
def mutCalls (log : List Call) : List Call :=
  log.filter Call.isMutating

/-- The injected client, as an oracle: each response may depend on the
log of calls made before it (so a group may e.g. exist on the first
existence check and not on the second). -/
structure Client where
  exists_resp : List Call → String → Bool
  get_resp : List Call → String → PyVal
  create_resp : List Call → String → String → PyVal → PyVal → PyVal
  delete_resp : List Call → String → Bool

/-- The `ret` dictionary both state functions build: keys `name`,
`result`, `comment`, `changes` (lines 141-146 and 226-231 of the
source). -/
structure Ret where
  name : String
  result : PyVal
  comment : String
  changes : PyVal
  deriving DecidableEq, Repr

/-- The `ret` dictionary as a Python dict value. -/
def Ret.toPyVal (r : Ret) : PyVal :=
  PyVal.dict
    [("name", PyVal.str r.name), ("result", r.result),
     ("comment", PyVal.str r.comment), ("changes", r.changes)]

/-- The comment returned when `connection_auth` is not a dict
(lines 149 and 234). -/
def connAuthComment : String :=
  "Connection information must be specified via connection_auth dictionary!"

/-- Lines 188-210 of `resource_group_present`: call
`resource_group_create_or_update`, re-check existence, and report.
`changes₀` is the value `ret['changes']` holds on entry (the tag diff
when the group existed, `{}` otherwise); it is what the failure branch
returns (line 209 leaves `ret['changes']` untouched). -/
def createBranch (cl : Client) (name location : String) (managed_by tags changes₀ : PyVal)
    (log : List Call) : Ret × List Call :=
  let group := cl.create_resp log name location managed_by tags
  let log₂ := log ++ [Call.create_or_update name location managed_by tags]
  if cl.exists_resp log₂ name then
    (Ret.mk name (PyVal.boolV true)
      ("Resource group " ++ name ++ " has been created.")
      (PyVal.dict [("old", PyVal.dict []), ("new", group)]),
     log₂ ++ [Call.check_existence name])
  else
    (Ret.mk name (PyVal.boolV false)
      ("Failed to create resource group " ++ name ++ "! (" ++
        pyStrOf (pyGet group "error" PyVal.noneV) ++ ")")
      changes₀,
     log₂ ++ [Call.check_existence name])

/-- Embedding of `resource_group_present` (lines 104-210).  `test` is
`__opts__['test']`; the second component is the log of client calls. -/
def resource_group_present (cl : Client) (test : Bool) (name location : String)
    (managed_by : PyVal) (tags : PyVal) (connection_auth : PyVal) : Ret × List Call :=
  if !connection_auth.isDict then
    (Ret.mk name (PyVal.boolV false) connAuthComment (PyVal.dict []), [])
  else if cl.exists_resp [] name then
    let group := cl.get_resp [Call.check_existence name] name
    let changes := deep_diff (pyGet group "tags" (PyVal.dict [])) (pyOr tags (PyVal.dict []))
    if !changes.isTruthy then
      (Ret.mk name (PyVal.boolV true)
        ("Resource group " ++ name ++ " is already present.") changes,
       [Call.check_existence name, Call.get name])
    else if test then
      (Ret.mk name PyVal.noneV
        ("Resource group " ++ name ++ " tags would be updated.")
        (PyVal.dict [("old", pyGet group "tags" (PyVal.dict [])), ("new", tags)]),
       [Call.check_existence name, Call.get name])
    else
      createBranch cl name location managed_by tags changes
        [Call.check_existence name, Call.get name]
  else if test then
    (Ret.mk name PyVal.noneV
      ("Resource group " ++ name ++ " would be created.")
      (PyVal.dict
        [("old", PyVal.dict []),
         ("new", PyVal.dict
           [("name", PyVal.str name), ("location", PyVal.str location),
            ("managed_by", managed_by), ("tags", tags)])]),
     [Call.check_existence name])
  else
    createBranch cl name location managed_by tags (PyVal.dict [])
      [Call.check_existence name]

/-- Embedding of `resource_group_absent` (lines 213-275).  Note lines
260-263: the post-delete existence check runs only when
`resource_group_delete` returned a falsy value. -/
def resource_group_absent (cl : Client) (test : Bool) (name : String)
    (connection_auth : PyVal) : Ret × List Call :=
  if !connection_auth.isDict then
    (Ret.mk name (PyVal.boolV false) connAuthComment (PyVal.dict []), [])
  else if !(cl.exists_resp [] name) then
    (Ret.mk name (PyVal.boolV true)
      ("Resource group " ++ name ++ " is already absent.") (PyVal.dict []),
     [Call.check_existence name])
  else if test then
    let group := cl.get_resp [Call.check_existence name] name
    (Ret.mk name PyVal.noneV
      ("Resource group " ++ name ++ " would be deleted.")
      (PyVal.dict [("old", group), ("new", PyVal.dict [])]),
     [Call.check_existence name, Call.get name])
  else
    let group := cl.get_resp [Call.check_existence name] name
    if cl.delete_resp [Call.check_existence name, Call.get name] name then
      (Ret.mk name (PyVal.boolV true)
        ("Resource group " ++ name ++ " has been deleted.")
        (PyVal.dict [("old", group), ("new", PyVal.dict [])]),
       [Call.check_existence name, Call.get name, Call.delete name])
    else if !(cl.exists_resp [Call.check_existence name, Call.get name, Call.delete name] name) then
      (Ret.mk name (PyVal.boolV true)
        ("Resource group " ++ name ++ " has been deleted.")
        (PyVal.dict [("old", group), ("new", PyVal.dict [])]),
       [Call.check_existence name, Call.get name, Call.delete name, Call.check_existence name])
    else
      (Ret.mk name (PyVal.boolV false)
        ("Failed to delete resource group " ++ name ++ "!") (PyVal.dict []),
       [Call.check_existence name, Call.get name, Call.delete name, Call.check_existence name])

/-- Modelled from the spec: the live cloud, a mapping from resource-group
name to its record, used to model "the client applying the first call's
mutation" in the idempotence property.  The actual client lives outside
this repository. -/
structure Cloud where
  groups : List (String × PyVal)

/-- The record the faithful cloud stores for a group after
`create_or_update(name, location, managed_by=..., tags=...)`: the spec's
`ResourceGroupRecord`, mirroring the spec fields. -/
def mkRecord (name location : String) (managed_by tags : PyVal) : PyVal :=
  PyVal.dict
    [("name", PyVal.str name), ("location", PyVal.str location),
     ("managed_by", managed_by), ("tags", tags)]

/-- Effect of one client call on the faithful cloud: `create_or_update`
stores the record under the name, `delete` removes the name, reads leave
the cloud unchanged. -/
def Cloud.applyCall : Cloud → Call → Cloud
  | c, Call.create_or_update n loc mb tg =>
      Cloud.mk ((n, mkRecord n loc mb tg) :: c.groups.filter (fun p => p.1 != n))
  | c, Call.delete n => Cloud.mk (c.groups.filter (fun p => p.1 != n))
  | c, _ => c

/-- The cloud after replaying a log of client calls. -/
def cloudAfter (c : Cloud) (log : List Call) : Cloud :=
  log.foldl Cloud.applyCall c

/-- Modelled from the spec: a client that applies every mutation
faithfully — each response reflects the cloud state after the calls
logged so far, `create_or_update` returns the stored record, and
`delete` succeeds. -/
def cloudClient (c : Cloud) : Client where
  exists_resp := fun log n => (pyLookup (cloudAfter c log).groups n).isSome
  get_resp := fun log n => (pyLookup (cloudAfter c log).groups n).getD (PyVal.dict [])
  create_resp := fun _ n loc mb tg => mkRecord n loc mb tg
  delete_resp := fun _ _ => true

/-- Two sequential invocations of `resource_group_present` with the same
arguments against the faithful cloud (no dry-run); the result of the
second invocation. -/
def presentTwice (c : Cloud) (name location : String) (managed_by tags : PyVal) : Ret :=
  let out₁ := resource_group_present (cloudClient c) false name location managed_by tags
    (PyVal.dict [])
  let c₂ := cloudAfter c out₁.2
  (resource_group_present (cloudClient c₂) false name location managed_by tags
    (PyVal.dict [])).1

/-- A dict value has no duplicate keys (Python dicts always satisfy
this); trivially true for non-dicts. -/
def NodupKeys (v : PyVal) : Prop :=
  match v with
  | PyVal.dict es => (es.map Prod.fst).Nodup
  | _ => True

/-- In a dict entry list with no duplicate keys, lookup of a present
entry's key returns that entry's value. -/
theorem pyLookup_mem_of_nodup {es : List (String × PyVal)}
    (h : (es.map Prod.fst).Nodup) {k : String} {v : PyVal}
    (hm : (k, v) ∈ es) : pyLookup es k = some v := by
  induction es with
  | nil => cases hm
  | cons hd tl ih =>
      rw [List.map_cons, List.nodup_cons] at h
      obtain ⟨hhd, htl⟩ := h
      rcases List.mem_cons.mp hm with heq | hmem
      · subst heq
        simp [pyLookup]
      · have hne : hd.1 ≠ k := by
          intro hcontra
          apply hhd
          rw [hcontra]
          exact List.mem_map_of_mem Prod.fst hmem
        rw [show pyLookup (hd :: tl) k = pyLookup tl k by simp [pyLookup, hne]]
        exact ih htl hmem

/-- The entry list of `tags or {}` equals the entry list of `tags`. -/
theorem entries_pyOr_empty (v : PyVal) :
    (match pyOr v (PyVal.dict []) with | PyVal.dict es => es | _ => []) =
      (match v with | PyVal.dict es => es | _ => []) := by
  cases v with
  | dict es => cases es <;> simp [pyOr, PyVal.isTruthy]
  | str s =>
      by_cases hs : s = "" <;> simp [pyOr, PyVal.isTruthy, hs]
  | noneV => simp [pyOr, PyVal.isTruthy]
  | boolV b => cases b <;> simp [pyOr, PyVal.isTruthy]

/-- The diff of a duplicate-free dict against itself (modulo `or {}`)
is empty. -/
theorem deep_diff_self (v : PyVal) (h : NodupKeys v) :
    deep_diff v (pyOr v (PyVal.dict [])) = PyVal.dict [] := by
  have hes := entries_pyOr_empty v
  unfold deep_diff
  rw [hes]
  cases v with
  | dict es =>
      have hn : (es.map Prod.fst).Nodup := h
      have hfilter : es.filter (fun kv => !(pyLookup es kv.1 == some kv.2)) = [] := by
        apply List.filter_eq_nil_iff.mpr
        intro kv hkv
        have : pyLookup es kv.1 = some kv.2 :=
          pyLookup_mem_of_nodup hn (by simpa using hkv)
        simp [this]
      simp [hfilter]
  | str s => simp
  | noneV => simp
  | boolV b => simp

/-- The call log of the create-and-verify branch: the entry log, then the
single `create_or_update`, then the verification existence read. -/
theorem createBranch_log (cl : Client) (name location : String)
    (managed_by tags changes₀ : PyVal) (log : List Call) :
    (createBranch cl name location managed_by tags changes₀ log).2 =
      (log ++ [Call.create_or_update name location managed_by tags]) ++
        [Call.check_existence name] := by
  simp only [createBranch]
  split <;> rfl

/-- The result of the create-and-verify branch is decided by the
verification existence read. -/
theorem createBranch_result (cl : Client) (name location : String)
    (managed_by tags changes₀ : PyVal) (log : List Call) :
    (createBranch cl name location managed_by tags changes₀ log).1.result =
      (if cl.exists_resp (log ++ [Call.create_or_update name location managed_by tags]) name
        then PyVal.boolV true else PyVal.boolV false) := by
  unfold createBranch
  split <;> simp_all

/-- A diff that is falsy is the empty dict. -/
theorem deep_diff_empty_of_not_truthy (o n : PyVal)
    (h : (deep_diff o n).isTruthy = false) : deep_diff o n = PyVal.dict [] := by
  simp only [deep_diff] at h ⊢
  split_ifs at h ⊢ <;> simp_all [PyVal.isTruthy]

/-- C4: dry-run only — with the dry-run flag set, neither state function
performs any mutating client call (`create_or_update` or `delete`): the
mutation-call count is zero on every path. -/
theorem c4_dry_run_never_mutates (cl : Client) (name location : String)
    (managed_by tags connection_auth : PyVal) :
    mutCalls (resource_group_present cl true name location managed_by tags connection_auth).2
      = [] ∧
    mutCalls (resource_group_absent cl true name connection_auth).2 = [] := by
  constructor
  · by_cases hauth : connection_auth.isDict
    · by_cases hex : cl.exists_resp [] name
      · by_cases hch :
          (deep_diff (pyGet (cl.get_resp [Call.check_existence name] name) "tags"
            (PyVal.dict [])) (pyOr tags (PyVal.dict []))).isTruthy
        · simp [resource_group_present, hauth, hex, hch, mutCalls, Call.isMutating]
        · simp [resource_group_present, hauth, hex, hch, mutCalls, Call.isMutating]
      · simp [resource_group_present, hauth, hex, mutCalls, Call.isMutating]
    · simp [resource_group_present, hauth, mutCalls]
  · by_cases hauth : connection_auth.isDict
    · by_cases hex : cl.exists_resp [] name
      · simp [resource_group_absent, hauth, hex, mutCalls, Call.isMutating]
      · simp [resource_group_absent, hauth, hex, mutCalls, Call.isMutating]
    · simp [resource_group_absent, hauth, mutCalls]

/-- C5: a `connection_auth` that is not a dict makes both state functions
return immediately with `result` false, the fixed connection-auth
comment, empty changes, and an empty client-call log. -/
theorem c5_invalid_connection_auth (cl : Client) (test : Bool) (name location : String)
    (managed_by tags connection_auth : PyVal)
    (hauth : connection_auth.isDict = false) :
    resource_group_present cl test name location managed_by tags connection_auth =
      (Ret.mk name (PyVal.boolV false) connAuthComment (PyVal.dict []), []) ∧
    resource_group_absent cl test name connection_auth =
      (Ret.mk name (PyVal.boolV false) connAuthComment (PyVal.dict []), []) := by
  constructor
  · unfold resource_group_present
    simp [hauth]
  · unfold resource_group_absent
    simp [hauth]

/-- A trivial concrete client: nothing exists, deletes succeed. -/
def trivClient : Client where
  exists_resp := fun _ _ => false
  get_resp := fun _ _ => PyVal.dict []
  create_resp := fun _ n loc mb tg => mkRecord n loc mb tg
  delete_resp := fun _ _ => true

/-- Witness for C5 at a concrete non-dict `connection_auth` (`None`). -/
theorem c5_invalid_connection_auth_witness :
    resource_group_present trivClient false "grp" "eastus" PyVal.noneV PyVal.noneV PyVal.noneV =
      (Ret.mk "grp" (PyVal.boolV false) connAuthComment (PyVal.dict []), []) ∧
    resource_group_absent trivClient false "grp" PyVal.noneV =
      (Ret.mk "grp" (PyVal.boolV false) connAuthComment (PyVal.dict []), []) :=
  c5_invalid_connection_auth trivClient false "grp" "eastus" PyVal.noneV PyVal.noneV PyVal.noneV
    rfl

/-- C6: `resource_group_absent` on a group the client reports absent
makes no mutating call and returns `result` true with the
"already absent" comment and empty changes. -/
theorem c6_absent_noop (cl : Client) (test : Bool) (name : String) (connection_auth : PyVal)
    (hauth : connection_auth.isDict = true)
    (habs : cl.exists_resp [] name = false) :
    resource_group_absent cl test name connection_auth =
      (Ret.mk name (PyVal.boolV true)
        ("Resource group " ++ name ++ " is already absent.") (PyVal.dict []),
       [Call.check_existence name]) ∧
    mutCalls (resource_group_absent cl test name connection_auth).2 = [] := by
  unfold resource_group_absent
  simp [hauth, habs, mutCalls, Call.isMutating]

/-- Witness for C6 at name `foo`, with the comment spelled out. -/
theorem c6_absent_noop_witness :
    resource_group_absent trivClient false "foo" (PyVal.dict []) =
      (Ret.mk "foo" (PyVal.boolV true) "Resource group foo is already absent." (PyVal.dict []),
       [Call.check_existence "foo"]) ∧
    mutCalls (resource_group_absent trivClient false "foo" (PyVal.dict [])).2 = [] :=
  c6_absent_noop trivClient false "foo" (PyVal.dict []) rfl rfl

/-- The comment of the create-and-verify branch when the verification
read does not confirm existence: the client-reported `error` field is
embedded. -/
theorem createBranch_comment_of_fail (cl : Client) (name location : String)
    (managed_by tags changes₀ : PyVal) (log : List Call)
    (h : cl.exists_resp (log ++ [Call.create_or_update name location managed_by tags]) name
      = false) :
    (createBranch cl name location managed_by tags changes₀ log).1.comment =
      "Failed to create resource group " ++ name ++ "! (" ++
        pyStrOf (pyGet (cl.create_resp log name location managed_by tags) "error" PyVal.noneV)
        ++ ")" := by
  simp [createBranch, h]

/-- The calls `resource_group_present` makes before reaching the
create-and-verify branch: the existence check, plus the record fetch
when the group existed. -/
def presentPre (cl : Client) (name : String) : List Call :=
  if cl.exists_resp [] name then [Call.check_existence name, Call.get name]
  else [Call.check_existence name]

/-- C1: on a dict `connection_auth`, when the group is absent or its
tags drift (and dry-run is off), `resource_group_present` performs
exactly one mutating call (`create_or_update`), immediately followed by
a verification existence read; the result is true iff that re-check
confirms existence, and on failure the client-reported error is embedded
in the comment. -/
theorem c1_present_mutation_verified (cl : Client) (name location : String)
    (managed_by tags connection_auth : PyVal)
    (hauth : connection_auth.isDict = true)
    (hdrift : cl.exists_resp [] name = false ∨
      (cl.exists_resp [] name = true ∧
        (deep_diff (pyGet (cl.get_resp [Call.check_existence name] name) "tags" (PyVal.dict []))
          (pyOr tags (PyVal.dict []))).isTruthy = true)) :
    (resource_group_present cl false name location managed_by tags connection_auth).2 =
      presentPre cl name ++
        [Call.create_or_update name location managed_by tags, Call.check_existence name] ∧
    mutCalls (resource_group_present cl false name location managed_by tags connection_auth).2 =
      [Call.create_or_update name location managed_by tags] ∧
    (resource_group_present cl false name location managed_by tags connection_auth).1.result =
      (if cl.exists_resp
          (presentPre cl name ++ [Call.create_or_update name location managed_by tags]) name
        then PyVal.boolV true else PyVal.boolV false) ∧
    (cl.exists_resp
        (presentPre cl name ++ [Call.create_or_update name location managed_by tags]) name
          = false →
      (resource_group_present cl false name location managed_by tags connection_auth).1.comment =
        "Failed to create resource group " ++ name ++ "! (" ++
          pyStrOf (pyGet (cl.create_resp (presentPre cl name) name location managed_by tags)
            "error" PyVal.noneV) ++ ")") := by
  rcases hdrift with habs | hdrift
  · have e1 : resource_group_present cl false name location managed_by tags connection_auth =
        createBranch cl name location managed_by tags (PyVal.dict [])
          [Call.check_existence name] := by
      simp [resource_group_present, hauth, habs]
    have e2 : presentPre cl name = [Call.check_existence name] := by
      simp [presentPre, habs]
    rw [e1, e2]
    refine ⟨?_, ?_, ?_, ?_⟩
    · rw [createBranch_log]
      simp
    · rw [createBranch_log]
      simp [mutCalls, Call.isMutating]
    · rw [createBranch_result]
    · intro hfail
      exact createBranch_comment_of_fail cl name location managed_by tags (PyVal.dict [])
        [Call.check_existence name] hfail
  · obtain ⟨hex, hch⟩ := hdrift
    have e1 : resource_group_present cl false name location managed_by tags connection_auth =
        createBranch cl name location managed_by tags
          (deep_diff (pyGet (cl.get_resp [Call.check_existence name] name) "tags"
            (PyVal.dict [])) (pyOr tags (PyVal.dict [])))
          [Call.check_existence name, Call.get name] := by
      simp [resource_group_present, hauth, hex, hch]
    have e2 : presentPre cl name = [Call.check_existence name, Call.get name] := by
      simp [presentPre, hex]
    rw [e1, e2]
    refine ⟨?_, ?_, ?_, ?_⟩
    · rw [createBranch_log]
      simp
    · rw [createBranch_log]
      simp [mutCalls, Call.isMutating]
    · rw [createBranch_result]
    · intro hfail
      exact createBranch_comment_of_fail cl name location managed_by tags _
        [Call.check_existence name, Call.get name] hfail

/-- Witness for C1: the trivial client reports every group absent, so
the create call happens, the verification read fails, and the error
(`None`) appears in the comment. -/
theorem c1_present_mutation_verified_witness :
    (resource_group_present trivClient false "grp" "eastus" PyVal.noneV PyVal.noneV
        (PyVal.dict [])).2 =
      presentPre trivClient "grp" ++
        [Call.create_or_update "grp" "eastus" PyVal.noneV PyVal.noneV,
         Call.check_existence "grp"] ∧
    mutCalls (resource_group_present trivClient false "grp" "eastus" PyVal.noneV PyVal.noneV
        (PyVal.dict [])).2 =
      [Call.create_or_update "grp" "eastus" PyVal.noneV PyVal.noneV] ∧
    (resource_group_present trivClient false "grp" "eastus" PyVal.noneV PyVal.noneV
        (PyVal.dict [])).1.result =
      (if trivClient.exists_resp
          (presentPre trivClient "grp" ++
            [Call.create_or_update "grp" "eastus" PyVal.noneV PyVal.noneV]) "grp"
        then PyVal.boolV true else PyVal.boolV false) ∧
    (trivClient.exists_resp
        (presentPre trivClient "grp" ++
          [Call.create_or_update "grp" "eastus" PyVal.noneV PyVal.noneV]) "grp" = false →
      (resource_group_present trivClient false "grp" "eastus" PyVal.noneV PyVal.noneV
          (PyVal.dict [])).1.comment =
        "Failed to create resource group " ++ "grp" ++ "! (" ++
          pyStrOf (pyGet (trivClient.create_resp (presentPre trivClient "grp") "grp" "eastus"
            PyVal.noneV PyVal.noneV) "error" PyVal.noneV) ++ ")") :=
  c1_present_mutation_verified trivClient "grp" "eastus" PyVal.noneV PyVal.noneV
    (PyVal.dict []) rfl (Or.inl rfl)

/-- The `tags` field stored in a fresh record is the raw `tags` argument. -/
theorem pyGet_mkRecord_tags (name location : String) (managed_by tags : PyVal) :
    pyGet (mkRecord name location managed_by tags) "tags" (PyVal.dict []) = tags := by
  simp [mkRecord, pyGet, pyLookup]

/-- Running `resource_group_present` (no dry-run) against the faithful
cloud when the stored record is exactly the desired one is a no-op
reporting "already present" with empty changes. -/
theorem present_noop_of_fresh (c₂ : Cloud) (name location : String) (managed_by tags : PyVal)
    (hfind : pyLookup c₂.groups name = some (mkRecord name location managed_by tags))
    (hnd : NodupKeys tags) :
    (resource_group_present (cloudClient c₂) false name location managed_by tags
        (PyVal.dict [])).1 =
      Ret.mk name (PyVal.boolV true)
        ("Resource group " ++ name ++ " is already present.") (PyVal.dict []) := by
  have hex : (cloudClient c₂).exists_resp [] name = true := by
    simp [cloudClient, cloudAfter, hfind]
  have hget : (cloudClient c₂).get_resp [Call.check_existence name] name =
      mkRecord name location managed_by tags := by
    simp [cloudClient, cloudAfter, Cloud.applyCall, hfind]
  have hdiff :
      deep_diff (pyGet ((cloudClient c₂).get_resp [Call.check_existence name] name) "tags"
          (PyVal.dict [])) (pyOr tags (PyVal.dict [])) = PyVal.dict [] := by
    rw [hget, pyGet_mkRecord_tags]
    exact deep_diff_self tags hnd
  simp [resource_group_present, hex, hdiff, PyVal.isTruthy, PyVal.isDict]

/-- C3: on an existing group whose live tags show no structural diff
against the desired set, `resource_group_present` is a no-op Success
with the "already present" comment and empty changes; and against the
faithful cloud, two sequential `Present` invocations (no dry-run) end
with the second reporting Success with empty changes. -/
theorem c3_present_noop_and_idempotent :
    (∀ (cl : Client) (test : Bool) (name location : String)
        (managed_by tags connection_auth : PyVal),
      connection_auth.isDict = true →
      cl.exists_resp [] name = true →
      (deep_diff (pyGet (cl.get_resp [Call.check_existence name] name) "tags" (PyVal.dict []))
        (pyOr tags (PyVal.dict []))).isTruthy = false →
      resource_group_present cl test name location managed_by tags connection_auth =
        (Ret.mk name (PyVal.boolV true)
          ("Resource group " ++ name ++ " is already present.") (PyVal.dict []),
         [Call.check_existence name, Call.get name]) ∧
      mutCalls
        (resource_group_present cl test name location managed_by tags connection_auth).2 = []) ∧
    (∀ (c : Cloud) (name location : String) (managed_by tags : PyVal),
      NodupKeys tags →
      presentTwice c name location managed_by tags =
        Ret.mk name (PyVal.boolV true)
          ("Resource group " ++ name ++ " is already present.") (PyVal.dict [])) := by
  constructor
  · intro cl test name location managed_by tags connection_auth hauth hex hch
    have hempty :
        deep_diff (pyGet (cl.get_resp [Call.check_existence name] name) "tags" (PyVal.dict []))
          (pyOr tags (PyVal.dict [])) = PyVal.dict [] :=
      deep_diff_empty_of_not_truthy _ _ hch
    constructor
    · simp [resource_group_present, hauth, hex, hch, hempty, PyVal.isTruthy]
    · simp [resource_group_present, hauth, hex, hch, mutCalls, Call.isMutating]
  · intro c name location managed_by tags hnd
    simp only [presentTwice]
    by_cases hex1 : (cloudClient c).exists_resp [] name = true
    · by_cases hch :
        (deep_diff (pyGet ((cloudClient c).get_resp [Call.check_existence name] name) "tags"
          (PyVal.dict [])) (pyOr tags (PyVal.dict []))).isTruthy = true
      · have e1 : resource_group_present (cloudClient c) false name location managed_by tags
            (PyVal.dict []) =
            createBranch (cloudClient c) name location managed_by tags
              (deep_diff (pyGet ((cloudClient c).get_resp [Call.check_existence name] name)
                "tags" (PyVal.dict [])) (pyOr tags (PyVal.dict [])))
              [Call.check_existence name, Call.get name] := by
          simp [resource_group_present, hex1, hch, PyVal.isDict]
        have e2 : (resource_group_present (cloudClient c) false name location managed_by tags
            (PyVal.dict [])).2 =
            [Call.check_existence name, Call.get name,
             Call.create_or_update name location managed_by tags,
             Call.check_existence name] := by
          rw [e1, createBranch_log]
          rfl
        rw [e2]
        have e3 : cloudAfter c
            [Call.check_existence name, Call.get name,
             Call.create_or_update name location managed_by tags,
             Call.check_existence name] =
            Cloud.mk ((name, mkRecord name location managed_by tags) ::
              c.groups.filter (fun p => p.1 != name)) := by
          simp [cloudAfter, Cloud.applyCall]
        rw [e3]
        exact present_noop_of_fresh _ name location managed_by tags (by simp [pyLookup]) hnd
      · have e1 : resource_group_present (cloudClient c) false name location managed_by tags
            (PyVal.dict []) =
            (Ret.mk name (PyVal.boolV true)
              ("Resource group " ++ name ++ " is already present.")
              (deep_diff (pyGet ((cloudClient c).get_resp [Call.check_existence name] name)
                "tags" (PyVal.dict [])) (pyOr tags (PyVal.dict []))),
             [Call.check_existence name, Call.get name]) := by
          simp [resource_group_present, hex1, hch, PyVal.isDict]
        have e2 : (resource_group_present (cloudClient c) false name location managed_by tags
            (PyVal.dict [])).2 = [Call.check_existence name, Call.get name] := by
          rw [e1]
        rw [e2]
        have e3 : cloudAfter c [Call.check_existence name, Call.get name] = c := by
          simp [cloudAfter, Cloud.applyCall]
        rw [e3, e1]
        have hempty := deep_diff_empty_of_not_truthy
          (pyGet ((cloudClient c).get_resp [Call.check_existence name] name) "tags"
            (PyVal.dict [])) (pyOr tags (PyVal.dict [])) (by simpa using hch)
        simp [hempty]
    · have e1 : resource_group_present (cloudClient c) false name location managed_by tags
          (PyVal.dict []) =
          createBranch (cloudClient c) name location managed_by tags (PyVal.dict [])
            [Call.check_existence name] := by
        simp [resource_group_present, hex1, PyVal.isDict]
      have e2 : (resource_group_present (cloudClient c) false name location managed_by tags
          (PyVal.dict [])).2 =
          [Call.check_existence name,
           Call.create_or_update name location managed_by tags,
           Call.check_existence name] := by
        rw [e1, createBranch_log]
        rfl
      rw [e2]
      have e3 : cloudAfter c
          [Call.check_existence name,
           Call.create_or_update name location managed_by tags,
           Call.check_existence name] =
          Cloud.mk ((name, mkRecord name location managed_by tags) ::
            c.groups.filter (fun p => p.1 != name)) := by
        simp [cloudAfter, Cloud.applyCall]
      rw [e3]
      exact present_noop_of_fresh _ name location managed_by tags (by simp [pyLookup]) hnd

/-- Witness for C3: both conjuncts instantiated — a client already
holding an empty-tagged group, and the faithful cloud starting empty. -/
theorem c3_present_noop_and_idempotent_witness :
    resource_group_present
        (Client.mk (fun _ _ => true) (fun _ _ => PyVal.dict [("tags", PyVal.dict [])])
          (fun _ n loc mb tg => mkRecord n loc mb tg) (fun _ _ => true))
        false "grp" "eastus" PyVal.noneV PyVal.noneV (PyVal.dict []) =
      (Ret.mk "grp" (PyVal.boolV true) "Resource group grp is already present."
        (PyVal.dict []),
       [Call.check_existence "grp", Call.get "grp"]) ∧
    presentTwice (Cloud.mk []) "grp" "eastus" PyVal.noneV
        (PyVal.dict [("a", PyVal.str "1")]) =
      Ret.mk "grp" (PyVal.boolV true) "Resource group grp is already present."
        (PyVal.dict []) := by
  constructor
  · exact (c3_present_noop_and_idempotent.1
      (Client.mk (fun _ _ => true) (fun _ _ => PyVal.dict [("tags", PyVal.dict [])])
        (fun _ n loc mb tg => mkRecord n loc mb tg) (fun _ _ => true))
      false "grp" "eastus" PyVal.noneV PyVal.noneV (PyVal.dict []) rfl rfl (by decide)).1
  · exact c3_present_noop_and_idempotent.2 (Cloud.mk []) "grp" "eastus" PyVal.noneV
      (PyVal.dict [("a", PyVal.str "1")]) (by simp [NodupKeys])

/-- C9: with live tags `{a: "1"}` and desired tags `{a: "1", b: "2"}`
(no dry-run), the diff is `{new: {b: "2"}}` (an addition of `b`), and
`resource_group_present` performs exactly one `create_or_update` whose
tags argument is the merged set `{a: "1", b: "2"}`. -/
theorem c9_tag_merge_single_update (cl : Client) (name location : String)
    (managed_by connection_auth : PyVal)
    (hauth : connection_auth.isDict = true)
    (hex : cl.exists_resp [] name = true)
    (htags : pyGet (cl.get_resp [Call.check_existence name] name) "tags" (PyVal.dict []) =
      PyVal.dict [("a", PyVal.str "1")]) :
    deep_diff (PyVal.dict [("a", PyVal.str "1")])
        (PyVal.dict [("a", PyVal.str "1"), ("b", PyVal.str "2")]) =
      PyVal.dict [("new", PyVal.dict [("b", PyVal.str "2")])] ∧
    mutCalls (resource_group_present cl false name location managed_by
        (PyVal.dict [("a", PyVal.str "1"), ("b", PyVal.str "2")]) connection_auth).2 =
      [Call.create_or_update name location managed_by
        (PyVal.dict [("a", PyVal.str "1"), ("b", PyVal.str "2")])] := by
  constructor
  · decide
  · have hch :
        (deep_diff (pyGet (cl.get_resp [Call.check_existence name] name) "tags" (PyVal.dict []))
          (pyOr (PyVal.dict [("a", PyVal.str "1"), ("b", PyVal.str "2")])
            (PyVal.dict []))).isTruthy = true := by
      rw [htags]
      decide
    simp [resource_group_present, hauth, hex, hch, createBranch_log, mutCalls, Call.isMutating]

/-- A concrete client holding one group with tags `{a: "1"}`. -/
def c9Client : Client where
  exists_resp := fun _ _ => true
  get_resp := fun _ _ => PyVal.dict [("tags", PyVal.dict [("a", PyVal.str "1")])]
  create_resp := fun _ n loc mb tg => mkRecord n loc mb tg
  delete_resp := fun _ _ => true

/-- Witness for C9 against the concrete client. -/
theorem c9_tag_merge_single_update_witness :
    deep_diff (PyVal.dict [("a", PyVal.str "1")])
        (PyVal.dict [("a", PyVal.str "1"), ("b", PyVal.str "2")]) =
      PyVal.dict [("new", PyVal.dict [("b", PyVal.str "2")])] ∧
    mutCalls (resource_group_present c9Client false "grp" "eastus" PyVal.noneV
        (PyVal.dict [("a", PyVal.str "1"), ("b", PyVal.str "2")]) (PyVal.dict [])).2 =
      [Call.create_or_update "grp" "eastus" PyVal.noneV
        (PyVal.dict [("a", PyVal.str "1"), ("b", PyVal.str "2")])] :=
  c9_tag_merge_single_update c9Client "grp" "eastus" PyVal.noneV (PyVal.dict [])
    rfl rfl (by decide)

/-- C10: when `tags` is omitted (`None`) on an existing group, drift is
decided against the empty mapping (`tags or {}`), yet the raw `None` is
what is forwarded to `create_or_update` and reported as `new` in the
dry-run changes. -/
theorem c10_none_tags_raw_forwarded (cl : Client) (name location : String)
    (managed_by connection_auth : PyVal)
    (hauth : connection_auth.isDict = true)
    (hex : cl.exists_resp [] name = true) :
    ((deep_diff (pyGet (cl.get_resp [Call.check_existence name] name) "tags" (PyVal.dict []))
        (PyVal.dict [])).isTruthy = false →
      resource_group_present cl false name location managed_by PyVal.noneV connection_auth =
        (Ret.mk name (PyVal.boolV true)
          ("Resource group " ++ name ++ " is already present.") (PyVal.dict []),
         [Call.check_existence name, Call.get name])) ∧
    ((deep_diff (pyGet (cl.get_resp [Call.check_existence name] name) "tags" (PyVal.dict []))
        (PyVal.dict [])).isTruthy = true →
      mutCalls (resource_group_present cl false name location managed_by PyVal.noneV
          connection_auth).2 =
        [Call.create_or_update name location managed_by PyVal.noneV] ∧
      (resource_group_present cl true name location managed_by PyVal.noneV
          connection_auth).1.changes =
        PyVal.dict
          [("old", pyGet (cl.get_resp [Call.check_existence name] name) "tags" (PyVal.dict [])),
           ("new", PyVal.noneV)]) := by
  have hOr : pyOr PyVal.noneV (PyVal.dict []) = PyVal.dict [] := rfl
  constructor
  · intro hch
    have hempty :
        deep_diff (pyGet (cl.get_resp [Call.check_existence name] name) "tags" (PyVal.dict []))
          (PyVal.dict []) = PyVal.dict [] :=
      deep_diff_empty_of_not_truthy _ _ hch
    simp [resource_group_present, hauth, hex, hOr, hch, hempty, PyVal.isTruthy]
  · intro hch
    constructor
    · simp [resource_group_present, hauth, hex, hOr, hch, createBranch_log, mutCalls,
        Call.isMutating]
    · simp [resource_group_present, hauth, hex, hOr, hch]

/-- Witness for C10 against the concrete client with live tags
`{a: "1"}` (so the diff against the empty mapping is non-empty and the
second conjunct's branch is exercised). -/
theorem c10_none_tags_raw_forwarded_witness :
    ((deep_diff (pyGet (c9Client.get_resp [Call.check_existence "grp"] "grp") "tags"
        (PyVal.dict [])) (PyVal.dict [])).isTruthy = false →
      resource_group_present c9Client false "grp" "eastus" PyVal.noneV PyVal.noneV
          (PyVal.dict []) =
        (Ret.mk "grp" (PyVal.boolV true) "Resource group grp is already present."
          (PyVal.dict []),
         [Call.check_existence "grp", Call.get "grp"])) ∧
    ((deep_diff (pyGet (c9Client.get_resp [Call.check_existence "grp"] "grp") "tags"
        (PyVal.dict [])) (PyVal.dict [])).isTruthy = true →
      mutCalls (resource_group_present c9Client false "grp" "eastus" PyVal.noneV PyVal.noneV
          (PyVal.dict [])).2 =
        [Call.create_or_update "grp" "eastus" PyVal.noneV PyVal.noneV] ∧
      (resource_group_present c9Client true "grp" "eastus" PyVal.noneV PyVal.noneV
          (PyVal.dict [])).1.changes =
        PyVal.dict
          [("old", pyGet (c9Client.get_resp [Call.check_existence "grp"] "grp") "tags"
             (PyVal.dict [])),
           ("new", PyVal.noneV)]) :=
  c10_none_tags_raw_forwarded c9Client "grp" "eastus" PyVal.noneV (PyVal.dict []) rfl rfl

/-- A concrete client on which a group always exists and `delete`
reports success (so a post-delete existence check, had it run, would
still report the group present). -/
def c2Client : Client where
  exists_resp := fun _ _ => true
  get_resp := fun _ _ => PyVal.dict [("name", PyVal.str "foo")]
  create_resp := fun _ n loc mb tg => mkRecord n loc mb tg
  delete_resp := fun _ _ => true

/-- Counterexample to C2 as stated: when the client reports the delete
successful, `resource_group_absent` reports Success (result true) with
no post-delete existence re-check at all — the log ends at the delete —
even though the client's existence check (which still answers true at
that log) was never consulted. -/
theorem c2_absent_no_reverify_cex :
    (resource_group_absent c2Client false "foo" (PyVal.dict [])).1.result =
      PyVal.boolV true ∧
    (resource_group_absent c2Client false "foo" (PyVal.dict [])).2 =
      [Call.check_existence "foo", Call.get "foo", Call.delete "foo"] ∧
    c2Client.exists_resp (resource_group_absent c2Client false "foo" (PyVal.dict [])).2 "foo" =
      true := by
  exact ⟨rfl, rfl, rfl⟩

/-- C2 as amended: on an existing group (dict auth, no dry-run),
`resource_group_absent` fetches the record and invokes `delete`; if the
client reports the delete successful, it reports Success (changes
`{old: record, new: {}}`) without any post-delete existence check; only
when the client reports the delete failed does it re-verify via the
existence check, reporting Success iff that check shows the group
absent, else Failure. -/
theorem c2_absent_delete_verified (cl : Client) (name : String) (connection_auth : PyVal)
    (hauth : connection_auth.isDict = true)
    (hex : cl.exists_resp [] name = true) :
    (cl.delete_resp [Call.check_existence name, Call.get name] name = true →
      resource_group_absent cl false name connection_auth =
        (Ret.mk name (PyVal.boolV true)
          ("Resource group " ++ name ++ " has been deleted.")
          (PyVal.dict [("old", cl.get_resp [Call.check_existence name] name),
                       ("new", PyVal.dict [])]),
         [Call.check_existence name, Call.get name, Call.delete name])) ∧
    (cl.delete_resp [Call.check_existence name, Call.get name] name = false →
      ((cl.exists_resp [Call.check_existence name, Call.get name, Call.delete name] name
          = false ∧
        resource_group_absent cl false name connection_auth =
          (Ret.mk name (PyVal.boolV true)
            ("Resource group " ++ name ++ " has been deleted.")
            (PyVal.dict [("old", cl.get_resp [Call.check_existence name] name),
                         ("new", PyVal.dict [])]),
           [Call.check_existence name, Call.get name, Call.delete name,
            Call.check_existence name])) ∨
       (cl.exists_resp [Call.check_existence name, Call.get name, Call.delete name] name
          = true ∧
        resource_group_absent cl false name connection_auth =
          (Ret.mk name (PyVal.boolV false)
            ("Failed to delete resource group " ++ name ++ "!") (PyVal.dict []),
           [Call.check_existence name, Call.get name, Call.delete name,
            Call.check_existence name])))) := by
  constructor
  · intro hdel
    simp [resource_group_absent, hauth, hex, hdel]
  · intro hdel
    by_cases hpost :
        cl.exists_resp [Call.check_existence name, Call.get name, Call.delete name] name = true
    · right
      exact ⟨hpost, by simp [resource_group_absent, hauth, hex, hdel, hpost]⟩
    · left
      have hpost' :
          cl.exists_resp [Call.check_existence name, Call.get name, Call.delete name] name
            = false := by
        simpa using hpost
      exact ⟨hpost', by simp [resource_group_absent, hauth, hex, hdel, hpost']⟩

/-- Witness for the amended C2 on the concrete client whose delete
reports success. -/
theorem c2_absent_delete_verified_witness :
    (c2Client.delete_resp [Call.check_existence "foo", Call.get "foo"] "foo" = true →
      resource_group_absent c2Client false "foo" (PyVal.dict []) =
        (Ret.mk "foo" (PyVal.boolV true) "Resource group foo has been deleted."
          (PyVal.dict [("old", c2Client.get_resp [Call.check_existence "foo"] "foo"),
                       ("new", PyVal.dict [])]),
         [Call.check_existence "foo", Call.get "foo", Call.delete "foo"])) ∧
    (c2Client.delete_resp [Call.check_existence "foo", Call.get "foo"] "foo" = false →
      ((c2Client.exists_resp [Call.check_existence "foo", Call.get "foo", Call.delete "foo"]
          "foo" = false ∧
        resource_group_absent c2Client false "foo" (PyVal.dict []) =
          (Ret.mk "foo" (PyVal.boolV true) "Resource group foo has been deleted."
            (PyVal.dict [("old", c2Client.get_resp [Call.check_existence "foo"] "foo"),
                         ("new", PyVal.dict [])]),
           [Call.check_existence "foo", Call.get "foo", Call.delete "foo",
            Call.check_existence "foo"])) ∨
       (c2Client.exists_resp [Call.check_existence "foo", Call.get "foo", Call.delete "foo"]
          "foo" = true ∧
        resource_group_absent c2Client false "foo" (PyVal.dict []) =
          (Ret.mk "foo" (PyVal.boolV false) "Failed to delete resource group foo!"
            (PyVal.dict []),
           [Call.check_existence "foo", Call.get "foo", Call.delete "foo",
            Call.check_existence "foo"])))) :=
  c2_absent_delete_verified c2Client "foo" (PyVal.dict []) rfl rfl

/-- The changes value is a dict whose keys are among `old` and `new`. -/
def ChangesKeysOK (v : PyVal) : Prop :=
  ∃ es, v = PyVal.dict es ∧ ∀ k ∈ es.map Prod.fst, k = "old" ∨ k = "new"

/-- The empty dict trivially has keys among `old`/`new`. -/
theorem changesKeysOK_empty : ChangesKeysOK (PyVal.dict []) := by
  refine ⟨[], rfl, ?_⟩
  intro k hk
  simp at hk

/-- A two-entry `{old, new}` dict has keys among `old`/`new`. -/
theorem changesKeysOK_oldNew (a b : PyVal) :
    ChangesKeysOK (PyVal.dict [("old", a), ("new", b)]) := by
  refine ⟨_, rfl, ?_⟩
  intro k hk
  simpa using hk

/-- A diff result has keys among `old`/`new` (possibly only one). -/
theorem changesKeysOK_deep_diff (o n : PyVal) : ChangesKeysOK (deep_diff o n) := by
  simp only [deep_diff]
  refine ⟨_, rfl, ?_⟩
  intro k hk
  rw [List.map_append] at hk
  rcases List.mem_append.mp hk with hk | hk
  · split at hk
    · simp at hk
    · left
      simpa using hk
  · split at hk
    · simp at hk
    · right
      simpa using hk

/-- The shape every returned `ret` should have per C8 (amended on the
changes component): exactly the four keys, `name` echoing the input,
`result` among true/false/`None` with `None` only in dry-run, and a
changes dict with keys among `old`/`new`. -/
def RetShapeOK (test : Bool) (name : String) (r : Ret) : Prop :=
  pyKeys r.toPyVal = ["name", "result", "comment", "changes"] ∧
  r.name = name ∧
  (r.result = PyVal.boolV true ∨ r.result = PyVal.boolV false ∨ r.result = PyVal.noneV) ∧
  (r.result = PyVal.noneV → test = true) ∧
  ChangesKeysOK r.changes

/-- The create-and-verify branch returns a well-shaped `ret` whenever
its entry changes value is well-shaped. -/
theorem createBranch_shape (cl : Client) (name location : String)
    (managed_by tags changes₀ : PyVal) (log : List Call) (test : Bool)
    (hch : ChangesKeysOK changes₀) :
    RetShapeOK test name (createBranch cl name location managed_by tags changes₀ log).1 := by
  simp only [createBranch]
  split
  · exact ⟨rfl, rfl, Or.inl rfl, fun h => PyVal.noConfusion h, changesKeysOK_oldNew _ _⟩
  · exact ⟨rfl, rfl, Or.inr (Or.inl rfl), fun h => PyVal.noConfusion h, hch⟩

/-- C8 as amended: every `ret` from either state function has exactly
the keys name/result/comment/changes, echoes the input name, has
`result` among true/false/`None` (`None` only in dry-run), and `changes`
a dict with keys among `old`/`new` — on a failed tag update the raw diff
is returned, which may carry `old` alone or `new` alone, so "empty or of
shape old-and-new" does not hold as stated. -/
theorem c8_ret_shape_amended (cl : Client) (test : Bool) (name location : String)
    (managed_by tags connection_auth : PyVal) :
    RetShapeOK test name
      (resource_group_present cl test name location managed_by tags connection_auth).1 ∧
    RetShapeOK test name (resource_group_absent cl test name connection_auth).1 := by
  constructor
  · by_cases hauth : connection_auth.isDict = true
    · by_cases hex : cl.exists_resp [] name = true
      · by_cases hch :
            (deep_diff (pyGet (cl.get_resp [Call.check_existence name] name) "tags"
              (PyVal.dict [])) (pyOr tags (PyVal.dict []))).isTruthy = true
        · by_cases htest : test = true
          · have e : resource_group_present cl test name location managed_by tags
                connection_auth =
                (Ret.mk name PyVal.noneV
                  ("Resource group " ++ name ++ " tags would be updated.")
                  (PyVal.dict
                    [("old", pyGet (cl.get_resp [Call.check_existence name] name) "tags"
                       (PyVal.dict [])),
                     ("new", tags)]),
                 [Call.check_existence name, Call.get name]) := by
              simp [resource_group_present, hauth, hex, hch, htest]
            rw [e]
            exact ⟨rfl, rfl, Or.inr (Or.inr rfl), fun _ => htest, changesKeysOK_oldNew _ _⟩
          · have e : resource_group_present cl test name location managed_by tags
                connection_auth =
                createBranch cl name location managed_by tags
                  (deep_diff (pyGet (cl.get_resp [Call.check_existence name] name) "tags"
                    (PyVal.dict [])) (pyOr tags (PyVal.dict [])))
                  [Call.check_existence name, Call.get name] := by
              simp [resource_group_present, hauth, hex, hch, htest]
            rw [e]
            exact createBranch_shape cl name location managed_by tags _ _ test
              (changesKeysOK_deep_diff _ _)
        · have e : resource_group_present cl test name location managed_by tags
              connection_auth =
              (Ret.mk name (PyVal.boolV true)
                ("Resource group " ++ name ++ " is already present.")
                (deep_diff (pyGet (cl.get_resp [Call.check_existence name] name) "tags"
                  (PyVal.dict [])) (pyOr tags (PyVal.dict []))),
               [Call.check_existence name, Call.get name]) := by
            simp [resource_group_present, hauth, hex, hch]
          rw [e]
          exact ⟨rfl, rfl, Or.inl rfl, fun h => PyVal.noConfusion h,
            changesKeysOK_deep_diff _ _⟩
      · by_cases htest : test = true
        · have e : resource_group_present cl test name location managed_by tags
              connection_auth =
              (Ret.mk name PyVal.noneV
                ("Resource group " ++ name ++ " would be created.")
                (PyVal.dict
                  [("old", PyVal.dict []),
                   ("new", PyVal.dict
                     [("name", PyVal.str name), ("location", PyVal.str location),
                      ("managed_by", managed_by), ("tags", tags)])]),
               [Call.check_existence name]) := by
            simp [resource_group_present, hauth, hex, htest]
          rw [e]
          exact ⟨rfl, rfl, Or.inr (Or.inr rfl), fun _ => htest, changesKeysOK_oldNew _ _⟩
        · have e : resource_group_present cl test name location managed_by tags
              connection_auth =
              createBranch cl name location managed_by tags (PyVal.dict [])
                [Call.check_existence name] := by
            simp [resource_group_present, hauth, hex, htest]
          rw [e]
          exact createBranch_shape cl name location managed_by tags _ _ test
            changesKeysOK_empty
    · have e : resource_group_present cl test name location managed_by tags connection_auth =
          (Ret.mk name (PyVal.boolV false) connAuthComment (PyVal.dict []), []) := by
        simp [resource_group_present, hauth]
      rw [e]
      exact ⟨rfl, rfl, Or.inr (Or.inl rfl), fun h => PyVal.noConfusion h, changesKeysOK_empty⟩
  · by_cases hauth : connection_auth.isDict = true
    · by_cases hex : cl.exists_resp [] name = true
      · by_cases htest : test = true
        · have e : resource_group_absent cl test name connection_auth =
              (Ret.mk name PyVal.noneV
                ("Resource group " ++ name ++ " would be deleted.")
                (PyVal.dict [("old", cl.get_resp [Call.check_existence name] name),
                             ("new", PyVal.dict [])]),
               [Call.check_existence name, Call.get name]) := by
            simp [resource_group_absent, hauth, hex, htest]
          rw [e]
          exact ⟨rfl, rfl, Or.inr (Or.inr rfl), fun _ => htest, changesKeysOK_oldNew _ _⟩
        · by_cases hdel :
              cl.delete_resp [Call.check_existence name, Call.get name] name = true
          · have e : resource_group_absent cl test name connection_auth =
                (Ret.mk name (PyVal.boolV true)
                  ("Resource group " ++ name ++ " has been deleted.")
                  (PyVal.dict [("old", cl.get_resp [Call.check_existence name] name),
                               ("new", PyVal.dict [])]),
                 [Call.check_existence name, Call.get name, Call.delete name]) := by
              simp [resource_group_absent, hauth, hex, htest, hdel]
            rw [e]
            exact ⟨rfl, rfl, Or.inl rfl, fun h => PyVal.noConfusion h,
              changesKeysOK_oldNew _ _⟩
          · by_cases hpost :
                cl.exists_resp [Call.check_existence name, Call.get name, Call.delete name]
                  name = true
            · have e : resource_group_absent cl test name connection_auth =
                  (Ret.mk name (PyVal.boolV false)
                    ("Failed to delete resource group " ++ name ++ "!") (PyVal.dict []),
                   [Call.check_existence name, Call.get name, Call.delete name,
                    Call.check_existence name]) := by
                simp [resource_group_absent, hauth, hex, htest, hdel, hpost]
              rw [e]
              exact ⟨rfl, rfl, Or.inr (Or.inl rfl), fun h => PyVal.noConfusion h,
                changesKeysOK_empty⟩
            · have e : resource_group_absent cl test name connection_auth =
                  (Ret.mk name (PyVal.boolV true)
                    ("Resource group " ++ name ++ " has been deleted.")
                    (PyVal.dict [("old", cl.get_resp [Call.check_existence name] name),
                                 ("new", PyVal.dict [])]),
                   [Call.check_existence name, Call.get name, Call.delete name,
                    Call.check_existence name]) := by
                simp [resource_group_absent, hauth, hex, htest, hdel, hpost]
              rw [e]
              exact ⟨rfl, rfl, Or.inl rfl, fun h => PyVal.noConfusion h,
                changesKeysOK_oldNew _ _⟩
      · have e : resource_group_absent cl test name connection_auth =
            (Ret.mk name (PyVal.boolV true)
              ("Resource group " ++ name ++ " is already absent.") (PyVal.dict []),
             [Call.check_existence name]) := by
          simp [resource_group_absent, hauth, hex]
        rw [e]
        exact ⟨rfl, rfl, Or.inl rfl, fun h => PyVal.noConfusion h, changesKeysOK_empty⟩
    · have e : resource_group_absent cl test name connection_auth =
          (Ret.mk name (PyVal.boolV false) connAuthComment (PyVal.dict []), []) := by
        simp [resource_group_absent, hauth]
      rw [e]
      exact ⟨rfl, rfl, Or.inr (Or.inl rfl), fun h => PyVal.noConfusion h, changesKeysOK_empty⟩

/-- A concrete client on which the group exists with live tags
`{b: "2"}` but vanishes after any call, and `create_or_update` returns
an empty record. -/
def c8Client : Client where
  exists_resp := fun log _ => log.isEmpty
  get_resp := fun _ _ => PyVal.dict [("tags", PyVal.dict [("b", PyVal.str "2")])]
  create_resp := fun _ _ _ _ _ => PyVal.dict []
  delete_resp := fun _ _ => false

/-- Counterexample to C8 as stated: on a failed tag update (desired tags
`None` against live `{b: "2"}`), the returned changes value is the raw
diff `{old: {b: "2"}}` — neither empty nor of shape `{old, new}`. -/
theorem c8_changes_shape_cex :
    (resource_group_present c8Client false "grp" "eastus" PyVal.noneV PyVal.noneV
        (PyVal.dict [])).1.changes =
      PyVal.dict [("old", PyVal.dict [("b", PyVal.str "2")])] ∧
    ¬ ((resource_group_present c8Client false "grp" "eastus" PyVal.noneV PyVal.noneV
          (PyVal.dict [])).1.changes = PyVal.dict [] ∨
       ∃ o n,
         (resource_group_present c8Client false "grp" "eastus" PyVal.noneV PyVal.noneV
            (PyVal.dict [])).1.changes = PyVal.dict [("old", o), ("new", n)]) := by
  have h : (resource_group_present c8Client false "grp" "eastus" PyVal.noneV PyVal.noneV
      (PyVal.dict [])).1.changes =
      PyVal.dict [("old", PyVal.dict [("b", PyVal.str "2")])] := by
    decide
  refine ⟨h, ?_⟩
  rw [h]
  rintro (hc | ⟨o, n, hc⟩)
  · simp at hc
  · simp at hc

/-- C7: on `resource_group_present`, the live record drives behaviour
only through its `tags` entry — replacing the client's `get` responses
by any others with the same `tags` projection changes neither the
mutating calls made nor the result (so live `location`/`managed_by` are
never compared) — and every mutating call carries the caller's
`location`/`managed_by`/`tags` arguments verbatim (so nothing else is
ever updated). -/
theorem c7_location_managed_by_inert :
    (∀ (cl : Client) (g₂ : List Call → String → PyVal) (test : Bool) (name location : String)
        (managed_by tags connection_auth : PyVal),
      (∀ log n, pyGet (cl.get_resp log n) "tags" (PyVal.dict []) =
          pyGet (g₂ log n) "tags" (PyVal.dict [])) →
      mutCalls (resource_group_present cl test name location managed_by tags
          connection_auth).2 =
        mutCalls (resource_group_present
          (Client.mk cl.exists_resp g₂ cl.create_resp cl.delete_resp)
          test name location managed_by tags connection_auth).2 ∧
      (resource_group_present cl test name location managed_by tags
          connection_auth).1.result =
        (resource_group_present (Client.mk cl.exists_resp g₂ cl.create_resp cl.delete_resp)
          test name location managed_by tags connection_auth).1.result) ∧
    (∀ (cl : Client) (test : Bool) (name location : String)
        (managed_by tags connection_auth : PyVal) (call : Call),
      call ∈ (resource_group_present cl test name location managed_by tags
        connection_auth).2 →
      call.isMutating = true →
      call = Call.create_or_update name location managed_by tags) := by
  constructor
  · intro cl g₂ test name location managed_by tags connection_auth htags
    by_cases hauth : connection_auth.isDict = true
    · by_cases hex : cl.exists_resp [] name = true
      · have hpg : pyGet (g₂ [Call.check_existence name] name) "tags" (PyVal.dict []) =
            pyGet (cl.get_resp [Call.check_existence name] name) "tags" (PyVal.dict []) :=
          (htags _ _).symm
        by_cases hch :
            (deep_diff (pyGet (cl.get_resp [Call.check_existence name] name) "tags"
              (PyVal.dict [])) (pyOr tags (PyVal.dict []))).isTruthy = true
        · by_cases htest : test = true
          · constructor <;>
              simp [resource_group_present, hauth, hex, hch, htest, hpg, mutCalls]
          · constructor
            · simp [resource_group_present, hauth, hex, hch, htest, hpg, createBranch_log,
                mutCalls, Call.isMutating]
            · simp [resource_group_present, hauth, hex, hch, htest, hpg, createBranch_result]
        · constructor <;>
            simp [resource_group_present, hauth, hex, hch, hpg, mutCalls]
      · by_cases htest : test = true
        · constructor <;> simp [resource_group_present, hauth, hex, htest, mutCalls]
        · constructor
          · simp [resource_group_present, hauth, hex, htest, createBranch_log, mutCalls,
              Call.isMutating]
          · simp [resource_group_present, hauth, hex, htest, createBranch_result]
    · constructor <;> simp [resource_group_present, hauth, mutCalls]
  · intro cl test name location managed_by tags connection_auth call hmem hmut
    have key : mutCalls (resource_group_present cl test name location managed_by tags
        connection_auth).2 = [] ∨
        mutCalls (resource_group_present cl test name location managed_by tags
          connection_auth).2 = [Call.create_or_update name location managed_by tags] := by
      by_cases hauth : connection_auth.isDict = true
      · by_cases hex : cl.exists_resp [] name = true
        · by_cases hch :
              (deep_diff (pyGet (cl.get_resp [Call.check_existence name] name) "tags"
                (PyVal.dict [])) (pyOr tags (PyVal.dict []))).isTruthy = true
          · by_cases htest : test = true
            · left
              simp [resource_group_present, hauth, hex, hch, htest, mutCalls,
                Call.isMutating]
            · right
              simp [resource_group_present, hauth, hex, hch, htest, createBranch_log,
                mutCalls, Call.isMutating]
          · left
            simp [resource_group_present, hauth, hex, hch, mutCalls, Call.isMutating]
        · by_cases htest : test = true
          · left
            simp [resource_group_present, hauth, hex, htest, mutCalls, Call.isMutating]
          · right
            simp [resource_group_present, hauth, hex, htest, createBranch_log, mutCalls,
              Call.isMutating]
      · left
        simp [resource_group_present, hauth, mutCalls]
    have hin : call ∈ mutCalls (resource_group_present cl test name location managed_by tags
        connection_auth).2 :=
      List.mem_filter.mpr ⟨hmem, hmut⟩
    rcases key with hk | hk <;> rw [hk] at hin
    · simp at hin
    · simpa using hin

/-- Witness for C7: the tags-projection hypothesis discharged with the
trivial client against a `None`-returning get, and the mutating-call
conclusion at the concrete create call of the C9 client's run. -/
theorem c7_location_managed_by_inert_witness :
    (mutCalls (resource_group_present trivClient false "grp" "eastus" PyVal.noneV PyVal.noneV
        (PyVal.dict [])).2 =
      mutCalls (resource_group_present
        (Client.mk trivClient.exists_resp (fun _ _ => PyVal.noneV) trivClient.create_resp
          trivClient.delete_resp)
        false "grp" "eastus" PyVal.noneV PyVal.noneV (PyVal.dict [])).2 ∧
     (resource_group_present trivClient false "grp" "eastus" PyVal.noneV PyVal.noneV
        (PyVal.dict [])).1.result =
      (resource_group_present
        (Client.mk trivClient.exists_resp (fun _ _ => PyVal.noneV) trivClient.create_resp
          trivClient.delete_resp)
        false "grp" "eastus" PyVal.noneV PyVal.noneV (PyVal.dict [])).1.result) ∧
    Call.create_or_update "grp" "eastus" PyVal.noneV
        (PyVal.dict [("a", PyVal.str "1"), ("b", PyVal.str "2")]) =
      Call.create_or_update "grp" "eastus" PyVal.noneV
        (PyVal.dict [("a", PyVal.str "1"), ("b", PyVal.str "2")]) :=
  ⟨c7_location_managed_by_inert.1 trivClient (fun _ _ => PyVal.noneV) false "grp" "eastus"
      PyVal.noneV PyVal.noneV (PyVal.dict []) (fun _ _ => rfl),
   c7_location_managed_by_inert.2 c9Client false "grp" "eastus" PyVal.noneV
      (PyVal.dict [("a", PyVal.str "1"), ("b", PyVal.str "2")]) (PyVal.dict [])
      (Call.create_or_update "grp" "eastus" PyVal.noneV
        (PyVal.dict [("a", PyVal.str "1"), ("b", PyVal.str "2")]))
      (by decide) rfl⟩
